import Mathlib

/-!
Verification development for the LinkedIn Sales Navigator MCP client
(`src/linkedin-client.ts`).

The TypeScript class `LinkedInClient` is shallowly embedded here:

* pure computations (CSRF token derivation, header construction, URL/query
  building, DOM extraction loops) become Lean functions translated
  line-by-line from the source;
* network and browser I/O is abstracted as explicit outcome parameters
  (`Except String α` for a Direct Transport response, `Except String Dom`
  for a browser navigation plus `page.evaluate` run), so each capability
  becomes a pure function from its parameters and the outcomes of its
  I/O steps to its returned value together with the list of transport
  attempts it makes;
* JavaScript truthiness (`x || d` falls back on `undefined`, `null` and
  `""`) is modelled explicitly wherever the source relies on it;
* JavaScript object spread (`{...a, ...b}`, later keys win) is modelled
  by list append with a last-entry-wins lookup.
-/

namespace LinkedInMCP

/-- Constructor configuration of `LinkedInClient` (source lines 20-23):
`li_at` is required, `jsessionid` optional. -/
structure LinkedInClientConfig where
  li_at : String
  jsessionid : Option String
deriving DecidableEq, Repr

/-- The private credential fields `li_at` / `jsessionid` of `LinkedInClient`
after construction (source lines 67-68). -/
structure Credentials where
  li_at : String
  jsessionid : String
deriving DecidableEq, Repr

/-- The alphabet `"abcdefghijklmnopqrstuvwxyz0123456789"` used by
`generateCsrfToken` (source line 81). -/
def csrfCharsList : List Char :=
  ("abcdefghijklmnopqrstuvwxyz0123456789").toList

/-- One `chars.charAt(Math.floor(Math.random() * chars.length))` pick
(source line 84); the random draw is abstracted as a `Fin 36` value. -/
def tokenChar (c : Fin 36) : Char :=
  csrfCharsList.get (Fin.cast (by decide) c)

/-- `generateCsrfToken` (source lines 79-87): sixteen iterations appending
one random alphabet character each.  The stream of `Math.random` draws is
abstracted as `rand : Nat → Fin 36` (draw for loop iteration `i`). -/
def generateCsrfToken (rand : Nat → Fin 36) : String :=
  String.mk ((List.range 16).map (fun i => tokenChar (rand i)))

/-- The constructor (source lines 73-77):
`this.jsessionid = config.jsessionid || `"ajax:${this.generateCsrfToken()}"``.
JavaScript `||` also falls back when the supplied string is empty. -/
def mkClient (config : LinkedInClientConfig) (rand : Nat → Fin 36) : Credentials :=
  { li_at := config.li_at
    jsessionid :=
      match config.jsessionid with
      | some j =>
          if j = ("") then ("\"ajax:") ++ generateCsrfToken rand ++ ("\"") else j
      | none => ("\"ajax:") ++ generateCsrfToken rand ++ ("\"") }

/-- `this.jsessionid.replace(/"/g, "")` (source line 108): delete every
double-quote character. -/
def stripQuotes (s : String) : String :=
  String.mk (s.data.filter (fun c => c ≠ ('"')))

/-- The private `headers` getter (source lines 89-111), as an ordered
key/value list (JavaScript object literals keep insertion order). -/
def sessionHeaders (c : Credentials) : List (String × String) :=
  [ (("User-Agent"),
     ("Mozilla/5.0 (Macintosh; Intel Mac OS X 10_15_7) AppleWebKit/537.36 (KHTML, like Gecko) Chrome/120.0.0.0 Safari/537.36")),
    (("Accept"), ("application/vnd.linkedin.normalized+json+2.1")),
    (("Accept-Language"), ("en-US,en;q=0.9")),
    (("x-li-lang"), ("en_US")),
    (("x-li-track"),
     ("\x7b\"clientVersion\":\"1.13.8844\",\"mpVersion\":\"1.13.8844\",\"osName\":\"web\",\"timezoneOffset\":-5,\"timezone\":\"America/New_York\",\"deviceFormFactor\":\"DESKTOP\",\"mpName\":\"voyager-web\"\x7d")),
    (("x-li-page-instance"), ("urn:li:page:d_flagship3_search_srp_people;")),
    (("x-restli-protocol-version"), ("2.0.0")),
    (("csrf-token"), stripQuotes c.jsessionid),
    (("Cookie"), ("li_at=") ++ c.li_at ++ ("; JSESSIONID=") ++ c.jsessionid) ]

/-- The header record sent by the private `request` method
(source lines 121-124): `{...this.headers, ...options.headers}`.
With last-entry-wins lookup, appending the caller record models the
JavaScript spread, where later keys override earlier ones. -/
def requestHeaders (c : Credentials) (callerHeaders : List (String × String)) :
    List (String × String) :=
  sessionHeaders c ++ callerHeaders

/-- Value a header record associates with key `k` under JavaScript object
semantics: the last entry for `k` wins. -/
def lookupHeader (hs : List (String × String)) (k : String) : Option String :=
  (hs.reverse.find? (fun p => p.1 == k)).map (fun p => p.2)

/-- Outcome of one raw HTTP exchange as seen by the private `request`
method (source lines 126-132): undici's status code and body text. -/
structure HttpResponse where
  statusCode : Nat
  text : String
deriving DecidableEq, Repr

/-- Status / parse handling of the private `request` method (source lines
134-140): non-2xx throws `LinkedIn API error <status>: <text prefix>`,
otherwise the body is JSON-parsed (parsing is abstracted as `parse`, which
throws — returns `Except.error` — on malformed bodies). -/
def requestResult (resp : HttpResponse) (parse : String → Except String α) :
    Except String α :=
  if resp.statusCode < 200 || 300 ≤ resp.statusCode then
    Except.error
      (("LinkedIn API error ") ++ toString resp.statusCode ++ (": ") ++
        resp.text.take 500)
  else parse resp.text

/-! ### JavaScript string helpers used by the DOM extraction callbacks -/

/-- JavaScript `String.prototype.trim()`: drop whitespace from both ends.
(Defined over the character list so that it evaluates in the kernel;
`String.trim` of core Lean is the same function but does not reduce.) -/
def jsTrim (s : String) : String :=
  String.mk
    (((s.data.dropWhile Char.isWhitespace).reverse.dropWhile
        Char.isWhitespace).reverse)

/-- Collapse every whitespace run to a single space: the callbacks'
`.replace(/\s+/g, " ")` (source lines 512-513).  The boolean argument
records whether the previous character was whitespace. -/
def squashRun : Bool → List Char → List Char
  | _, [] => []
  | prevWs, c :: rest =>
    if c.isWhitespace then
      if prevWs then squashRun true rest
      else (' ') :: squashRun true rest
    else c :: squashRun false rest

/-- `s.replace(/\s+/g, " ")` on a whole string. -/
def collapseSpaces (s : String) : String := String.mk (squashRun false s.data)

/-- `el?.textContent?.trim() || fallback`: the element may be absent
(`none`); an empty trimmed text is falsy and also yields the fallback. -/
def textOr (el : Option String) (fallback : String) : String :=
  match el with
  | none => fallback
  | some t => if jsTrim t = ("") then fallback else jsTrim t

/-- `el?.textContent?.trim().replace(/\s+/g, " ") || fallback`
(used for `tenure` and `connectionDegree`, source lines 512-513). -/
def textSquashOr (el : Option String) (fallback : String) : String :=
  match el with
  | none => fallback
  | some t =>
      if collapseSpaces (jsTrim t) = ("") then fallback
      else collapseSpaces (jsTrim t)

/-- `el?.getAttribute(..) || fallback` / `el?.href || fallback`:
absent element or empty attribute value yields the fallback. -/
def attrOr (v : Option String) (fallback : String) : String :=
  match v with
  | none => fallback
  | some s => if s = ("") then fallback else s

/-! ### The extraction loop shared by the `page.evaluate` callbacks

Every list extractor in the source is literally

```
items.forEach((item, index) => {
  if (index >= maxCount) return;      // raw-index cap (where present)
  ...optional skip checks...          // skip predicate (where present)
  results.push(build(item));
});
```

`RuleSet` packages the per-capability skip predicate and record builder;
`extractGo` is that loop. -/

/-- A per-entity extraction rule set: skip predicate plus field mapping.
Rule sets without skip checks in the source use the constantly-false
predicate. -/
structure RuleSet (Item Rec : Type) where
  skip : Item → Bool
  build : Item → Rec

/-- The `forEach` body: `idx` is the current DOM index, `maxCount` the cap.
Note the cap tests the raw DOM index, not the number collected so far. -/
def extractGo (rs : RuleSet Item Rec) : Nat → Nat → List Item → List Rec
  | _, _, [] => []
  | idx, maxCount, item :: rest =>
    if maxCount ≤ idx then extractGo rs (idx + 1) maxCount rest
    else if rs.skip item then extractGo rs (idx + 1) maxCount rest
    else rs.build item :: extractGo rs (idx + 1) maxCount rest

/-- Run a rule set over the DOM item list with the requested cap. -/
def extractRS (rs : RuleSet Item Rec) (items : List Item) (maxCount : Nat) :
    List Rec :=
  extractGo rs 0 maxCount items

theorem extractGo_stop (rs : RuleSet Item Rec) (idx maxCount : Nat)
    (items : List Item) (h : maxCount ≤ idx) :
    extractGo rs idx maxCount items = [] := by
  induction items generalizing idx with
  | nil => rfl
  | cons a rest ih =>
      rw [extractGo, if_pos h]
      exact ih (idx + 1) (Nat.le_succ_of_le h)

theorem extractGo_shift (rs : RuleSet Item Rec) (idx maxCount : Nat)
    (items : List Item) :
    extractGo rs (idx + 1) (maxCount + 1) items = extractGo rs idx maxCount items := by
  induction items generalizing idx with
  | nil => rfl
  | cons a rest ih =>
      rw [extractGo, extractGo]
      by_cases h : maxCount ≤ idx
      · rw [if_pos (Nat.succ_le_succ h), if_pos h]
        exact ih (idx + 1)
      · rw [if_neg (fun hc => h (Nat.le_of_succ_le_succ hc)), if_neg h]
        by_cases hs : rs.skip a
        · rw [if_pos hs, if_pos hs]
          exact ih (idx + 1)
        · rw [if_neg hs, if_neg hs, ih (idx + 1)]

theorem extractRS_clean_prefix (rs : RuleSet Item Rec) (items : List Item)
    (n : Nat) (h : ∀ it ∈ items.take n, rs.skip it = false) :
    extractRS rs items n = (items.take n).map rs.build := by
  induction items generalizing n with
  | nil => simp [extractRS, extractGo]
  | cons a rest ih =>
      cases n with
      | zero =>
          simp only [extractRS, List.take_zero, List.map_nil]
          exact extractGo_stop rs 0 0 (a :: rest) (Nat.le_refl 0)
      | succ m =>
          have ha : rs.skip a = false := by
            apply h
            simp [List.take_succ_cons]
          have hrest : ∀ it ∈ rest.take m, rs.skip it = false := by
            intro it hit
            apply h
            simp [List.take_succ_cons, hit]
          simp only [extractRS, extractGo, Nat.not_succ_le_zero, if_neg, ha,
            Bool.false_eq_true, List.take_succ_cons, List.map_cons]
          rw [if_neg (by omega : ¬ (m + 1 ≤ 0)), if_neg (by simp [ha]),
            extractGo_shift]
          exact congrArg _ (ih m hrest)

theorem extractRS_mem (rs : RuleSet Item Rec) (items : List Item) (n : Nat)
    (r : Rec) (h : r ∈ extractRS rs items n) :
    ∃ it, it ∈ items ∧ rs.skip it = false ∧ r = rs.build it := by
  suffices hgen : ∀ idx, r ∈ extractGo rs idx n items →
      ∃ it, it ∈ items ∧ rs.skip it = false ∧ r = rs.build it from
    hgen 0 h
  clear h
  induction items with
  | nil => intro idx hmem; simp [extractGo] at hmem
  | cons a rest ih =>
      intro idx hmem
      rw [extractGo] at hmem
      by_cases hc : n ≤ idx
      · rw [if_pos hc] at hmem
        obtain ⟨it, hit, hsk, hb⟩ := ih (idx + 1) hmem
        exact ⟨it, List.mem_cons_of_mem a hit, hsk, hb⟩
      · rw [if_neg hc] at hmem
        by_cases hs : rs.skip a
        · rw [if_pos hs] at hmem
          obtain ⟨it, hit, hsk, hb⟩ := ih (idx + 1) hmem
          exact ⟨it, List.mem_cons_of_mem a hit, hsk, hb⟩
        · rw [if_neg hs] at hmem
          rcases List.mem_cons.mp hmem with heq | hmem'
          · exact ⟨a, List.mem_cons_self a rest, Bool.of_not_eq_true hs, heq⟩
          · obtain ⟨it, hit, hsk, hb⟩ := ih (idx + 1) hmem'
            exact ⟨it, List.mem_cons_of_mem a hit, hsk, hb⟩

theorem extractRS_noskip_length (rs : RuleSet Item Rec)
    (hskip : ∀ it, rs.skip it = false) (items : List Item) (n : Nat) :
    (extractRS rs items n).length = min n items.length := by
  induction items generalizing n with
  | nil => simp [extractRS, extractGo]
  | cons a rest ih =>
      cases n with
      | zero =>
          simp only [extractRS]
          rw [extractGo_stop rs 0 0 (a :: rest) (Nat.le_refl 0)]
          simp
      | succ m =>
          simp only [extractRS, extractGo]
          rw [if_neg (by omega : ¬ (m + 1 ≤ 0)), if_neg (by simp [hskip a])]
          simp only [List.length_cons, extractGo_shift]
          have := ih m
          simp only [extractRS] at this
          rw [this, Nat.succ_min_succ]

/-! ### Lead search results (Sales Navigator people search,
`salesSearchLeadsBrowser`, source lines 476-519) -/

/-- One `li.artdeco-list__item` of the lead search page, as seen by the
callback's selectors.  `dummyText` records whether the item contains a
`.dummy-text` descendant (the loading-skeleton marker); each `Option`
field is the text content (or `href` attribute) of the corresponding
selector match, `none` when the selector matches nothing. -/
structure LeadDomItem where
  dummyText : Bool
  personName : Option String
  title : Option String
  companyName : Option String
  location : Option String
  personBlurb : Option String
  jobTitle : Option String
  badge : Option String
  salesLeadHref : Option String
deriving DecidableEq, Repr

/-- The record pushed for one lead (source lines 506-515). -/
structure LeadRecord where
  name : String
  title : String
  company : String
  location : String
  summary : String
  tenure : String
  connectionDegree : String
  profileLink : String
deriving DecidableEq, Repr

/-- Field mapping for one lead item (source lines 506-515). -/
def leadOfItem (item : LeadDomItem) : LeadRecord :=
  { name := textOr item.personName ("Unknown")
    title := textOr item.title ("")
    company := textOr item.companyName ("")
    location := textOr item.location ("")
    summary := textOr item.personBlurb ("")
    tenure := textSquashOr item.jobTitle ("")
    connectionDegree := textSquashOr item.badge ("")
    profileLink := attrOr item.salesLeadHref ("") }

/-- Lead search rule set: skip skeleton items (`.dummy-text`, source line
493) and items without a `person-name` element (source line 496). -/
def leadRules : RuleSet LeadDomItem LeadRecord :=
  { skip := fun item => item.dummyText || item.personName.isNone
    build := leadOfItem }

/-- The lead-callback loop (source lines 488-518). -/
def extractLeads (items : List LeadDomItem) (maxCount : Nat) : List LeadRecord :=
  extractRS leadRules items maxCount

/-! ### Account search results (`salesSearchAccounts` browser branch,
source lines 566-598) -/

/-- One `li.artdeco-list__item` of the account search page. -/
structure AccountDomItem where
  dummyText : Bool
  companyName : Option String
  subtitle : Option String
  caption : Option String
  salesCompanyHref : Option String
deriving DecidableEq, Repr

/-- The record pushed for one account (source lines 588-594). -/
structure AccountRecord where
  name : String
  industry : String
  size : String
  location : String
  link : String
deriving DecidableEq, Repr

/-- Field mapping for one account item; `location` is always the empty
string in the source (line 592). -/
def accountOfItem (item : AccountDomItem) : AccountRecord :=
  { name := textOr item.companyName ("Unknown")
    industry := textOr item.subtitle ("")
    size := textOr item.caption ("")
    location := ("")
    link := attrOr item.salesCompanyHref ("") }

/-- Account rule set: skip `.dummy-text` items (source line 579) and items
without a `company-name` element (source line 582). -/
def accountRules : RuleSet AccountDomItem AccountRecord :=
  { skip := fun item => item.dummyText || item.companyName.isNone
    build := accountOfItem }

/-- The account-callback loop (source lines 575-597). -/
def extractAccounts (items : List AccountDomItem) (maxCount : Nat) :
    List AccountRecord :=
  extractRS accountRules items maxCount

/-! ### Conversation list entries (`getConversations`, source lines
805-844) -/

/-- A `<time>` element: text content and `datetime` attribute. -/
structure ConvTimeEl where
  text : Option String
  datetime : Option String
deriving DecidableEq, Repr

/-- One `li.msg-conversation-listitem`.  `dummyText` records the presence
of the skeleton marker; the conversation callback never inspects it. -/
structure ConversationDomItem where
  dummyText : Bool
  participantName : Option String
  messageSnippet : Option String
  timeEl : Option ConvTimeEl
  unreadClass : Bool
  unreadCard : Bool
  linkHref : Option String
deriving DecidableEq, Repr

/-- The record pushed for one conversation (source lines 834-840). -/
structure ConversationRecord where
  participantName : String
  lastMessage : String
  timestamp : String
  unread : Bool
  conversationLink : String
deriving DecidableEq, Repr

/-- `timeEl?.textContent?.trim() || timeEl?.getAttribute("datetime") || ""`
(source line 837 and 901). -/
def timeElText (t : Option ConvTimeEl) : String :=
  match t with
  | none => ("")
  | some te =>
      match te.text with
      | some s => if jsTrim s = ("") then te.datetime.getD ("") else jsTrim s
      | none => te.datetime.getD ("")

/-- Field mapping for one conversation item (source lines 818-840);
`unread` is the class-list check or the unread-card query (831-832). -/
def convOfItem (item : ConversationDomItem) : ConversationRecord :=
  { participantName := textOr item.participantName ("Unknown")
    lastMessage := textOr item.messageSnippet ("")
    timestamp := timeElText item.timeEl
    unread := item.unreadClass || item.unreadCard
    conversationLink := attrOr item.linkHref ("") }

/-- Conversation rule set: the source has no skip check — every in-range
item is pushed. -/
def conversationRules : RuleSet ConversationDomItem ConversationRecord :=
  { skip := fun _ => false
    build := convOfItem }

/-- The conversation-callback loop (source lines 815-841). -/
def extractConversations (items : List ConversationDomItem) (maxCount : Nat) :
    List ConversationRecord :=
  extractRS conversationRules items maxCount

/-! ### Per-conversation message entries (`getConversationMessages`,
source lines 874-906) -/

/-- One `.msg-s-message-list__event` item. -/
structure MessageDomItem where
  dummyText : Bool
  senderName : Option String
  body : Option String
  timeEl : Option ConvTimeEl
deriving DecidableEq, Repr

/-- The record pushed for one message (source lines 898-902). -/
structure MessageRecord where
  senderName : String
  body : String
  timestamp : String
deriving DecidableEq, Repr

/-- Field mapping for one message item (source lines 885-902). -/
def messageOfItem (item : MessageDomItem) : MessageRecord :=
  { senderName := textOr item.senderName ("Unknown")
    body := textOr item.body ("")
    timestamp := timeElText item.timeEl }

/-- Message rule set: no skip check in the source. -/
def messageRules : RuleSet MessageDomItem MessageRecord :=
  { skip := fun _ => false
    build := messageOfItem }

/-- The message-callback loop (source lines 882-903). -/
def extractMessages (items : List MessageDomItem) (maxCount : Nat) :
    List MessageRecord :=
  extractRS messageRules items maxCount

/-! ### Lead-list entries (`getLeadLists` browser branch, source lines
678-689) -/

/-- The first `<a>` inside a lead-list item. -/
structure LeadListAnchor where
  text : Option String
  href : Option String
deriving DecidableEq, Repr

/-- One list item of the lists page; `dummyText` again records the
skeleton marker, which this callback never inspects. -/
structure LeadListDomItem where
  dummyText : Bool
  anchor : Option LeadListAnchor
deriving DecidableEq, Repr

/-- The record pushed for one lead list (source lines 683-686). -/
structure LeadListRecord where
  name : String
  link : String
deriving DecidableEq, Repr

/-- Field mapping for one lead-list item (source lines 682-686). -/
def leadListOfItem (item : LeadListDomItem) : LeadListRecord :=
  match item.anchor with
  | none => { name := ("Unknown"), link := ("") }
  | some a => { name := textOr a.text ("Unknown"), link := attrOr a.href ("") }

/-- The lead-list callback (source lines 678-689): a plain `forEach` with
no index cap and no skip check — every item is pushed. -/
def extractLeadLists (items : List LeadListDomItem) : List LeadListRecord :=
  items.map leadListOfItem

/-! ### Lead-profile header fields (`getSalesProfile` browser branch,
source lines 621-635): a singleton extraction, not a list loop. -/

/-- The topcard selectors of the lead-profile page. -/
structure ProfileTopcardDom where
  name : Option String
  headline : Option String
  company : Option String
  location : Option String
  summary : Option String
deriving DecidableEq, Repr

/-! ### URL / query-string building -/

/-- Hexadecimal digit characters used by percent-encoding. -/
def hexDigits : List Char := ("0123456789ABCDEF").toList

/-- Digit `n` (`n < 16`) as an uppercase hexadecimal character. -/
def hexDigit (n : Nat) : Char := hexDigits.getD n ('0')

/-- UTF-8 bytes of one character, as natural numbers. -/
def utf8Bytes (c : Char) : List Nat :=
  let n := c.toNat
  if n < 128 then [n]
  else if n < 2048 then [192 + n / 64, 128 + n % 64]
  else if n < 65536 then
    [224 + n / 4096, 128 + (n / 64) % 64, 128 + n % 64]
  else
    [240 + n / 262144, 128 + (n / 4096) % 64, 128 + (n / 64) % 64,
      128 + n % 64]

/-- `%HH` percent escape of one byte. -/
def percentEncodeByte (b : Nat) : String :=
  String.mk [('%'), hexDigit (b / 16 % 16), hexDigit (b % 16)]

/-- Characters `encodeURIComponent` leaves unescaped besides
alphanumerics. -/
def uriUnreservedExtra : List Char :=
  [('-'), ('_'), ('.'), ('!'), ('~'), ('*'), Char.ofNat 39, ('('), (')')]

/-- JavaScript `encodeURIComponent`: keep unreserved characters, percent-
encode the UTF-8 bytes of everything else. -/
def encodeURIComponent (s : String) : String :=
  String.join (s.data.map (fun c =>
    if c.isAlphanum || uriUnreservedExtra.contains c then String.singleton c
    else String.join ((utf8Bytes c).map percentEncodeByte)))

/-- Search parameters of the Sales Navigator searches
(`SalesSearchParams`, source lines 48-58). -/
structure SalesSearchParams where
  keywords : Option String := none
  title : Option String := none
  company : Option String := none
  geography : Option String := none
  industry : Option String := none
  seniorityLevel : Option String := none
  functionParam : Option String := none
  start : Option Nat := none
  count : Option Nat := none
deriving DecidableEq, Repr

/-- `if (params.x) filters.push(`TAG:${params.x}`)` — one optional filter
entry; a missing or empty (falsy) value contributes nothing. -/
def optFilter (tag : String) (v : Option String) : List String :=
  match v with
  | some s => if s = ("") then [] else [tag ++ (":") ++ s]
  | none => []

/-- `(type:${f.split(":")[0]},values:List(${f.split(":")[1]}))` (source
line 455): each filter string is split on `:`; pieces past the second are
dropped, exactly as `[0]`/`[1]` indexing drops them.  (Every filter built
by `optFilter` contains a colon, so the defaults are never used.) -/
def salesApiFilterEntry (f : String) : String :=
  let parts := f.splitOn (":")
  ("(type:") ++ parts.getD 0 ("") ++ (",values:List(") ++ parts.getD 1 ("") ++
    ("))")

/-- The `query=(keywords:...)` part (source lines 450-452): present only
for a truthy `keywords`. -/
def keywordsQueryPart (keywords : Option String) : List String :=
  match keywords with
  | some k =>
      if k = ("") then [] else [("query=(keywords:") ++ encodeURIComponent k ++ (")")]
  | none => []

/-- The `filters=List(...)` part (source lines 453-457). -/
def filtersQueryPart (filters : List String) : List String :=
  if filters.isEmpty then []
  else
    [("filters=List(") ++
      String.intercalate (",") (filters.map salesApiFilterEntry) ++ (")")]

/-- Endpoint built by `salesSearchLeadsApi` (source lines 436-458). -/
def salesSearchLeadsApiEndpoint (p : SalesSearchParams) : String :=
  let filters :=
    optFilter ("TITLE") p.title ++ optFilter ("COMPANY") p.company ++
    optFilter ("GEO") p.geography ++ optFilter ("INDUSTRY") p.industry ++
    optFilter ("SENIORITY") p.seniorityLevel ++
    optFilter ("FUNCTION") p.functionParam
  let queryParts :=
    [("q=searchQuery"),
     ("start=") ++ toString (p.start.getD 0),
     ("count=") ++ toString (p.count.getD 25)] ++
    keywordsQueryPart p.keywords ++ filtersQueryPart filters
  ("/sales-api/salesApiLeadSearch?") ++ String.intercalate ("&") queryParts

/-- Endpoint built by the `salesSearchAccounts` API branch (source lines
535-551): only `GEO` and `INDUSTRY` filters. -/
def salesSearchAccountsApiEndpoint (p : SalesSearchParams) : String :=
  let filters := optFilter ("GEO") p.geography ++ optFilter ("INDUSTRY") p.industry
  let queryParts :=
    [("q=searchQuery"),
     ("start=") ++ toString (p.start.getD 0),
     ("count=") ++ toString (p.count.getD 25)] ++
    keywordsQueryPart p.keywords ++ filtersQueryPart filters
  ("/sales-api/salesApiAccountSearch?") ++ String.intercalate ("&") queryParts

/-- Navigation URL of the lead-search browser branch (source lines
465-468): built from `keywords` alone. -/
def leadsBrowserUrl (p : SalesSearchParams) : String :=
  let searchParts : List String :=
    match p.keywords with
    | some k => if k = ("") then [] else [("keywords=") ++ encodeURIComponent k]
    | none => []
  ("https://www.linkedin.com/sales/search/people?") ++
    String.intercalate ("&") searchParts

/-- Navigation URL of the account-search browser branch (source lines
555-559): built from `keywords` alone. -/
def accountsBrowserUrl (p : SalesSearchParams) : String :=
  let searchParts : List String :=
    match p.keywords with
    | some k => if k = ("") then [] else [("keywords=") ++ encodeURIComponent k]
    | none => []
  ("https://www.linkedin.com/sales/search/company?") ++
    String.intercalate ("&") searchParts

/-- `getProfile` endpoint (source lines 222-226). -/
def getProfileEndpoint (publicIdentifier : String) : String :=
  ("/voyager/api/identity/dash/profiles?q=memberIdentity&memberIdentity=") ++
    encodeURIComponent publicIdentifier ++
    ("&decorationId=com.linkedin.voyager.dash.deco.identity.profile.WebTopCardCore-18")

/-- `getCompany` endpoint (source lines 376-380). -/
def getCompanyEndpoint (universalName : String) : String :=
  ("/voyager/api/organization/companies?decorationId=com.linkedin.voyager.deco.organization.web.WebFullCompanyMain-35&q=universalName&universalName=") ++
    encodeURIComponent universalName

/-- `getSalesProfile` API endpoint (source lines 609-611). -/
def getSalesProfileEndpoint (leadId : String) : String :=
  ("/sales-api/salesApiProfiles/(profileId:") ++ encodeURIComponent leadId ++
    (")?decoration=%28entityUrn%2CfirstName%2ClastName%2CfullName%2Cheadline%2CmemberBadges%2Cdegree%2CprofilePictureDisplayImage%2CpendingInvitation%2CunlockHighlight%2Clocation%2ClistCount%2Csummary%2CsavedLead%2CdefaultPosition%2CcontactInfo%2CcrmStatus%2Cpositions*%29")

/-- `getSavedLeads` API endpoint (source lines 646-648). -/
def savedLeadsEndpoint (start count : Nat) : String :=
  ("/sales-api/salesApiSavedLeads?q=savedLeads&start=") ++ toString start ++
    ("&count=") ++ toString count

/-- `getLeadLists` API endpoint (source lines 667-669). -/
def leadListsEndpoint (start count : Nat) : String :=
  ("/sales-api/salesApiLeadLists?q=leadLists&start=") ++ toString start ++
    ("&count=") ++ toString count

/-- `getLeadListMembers` API endpoint (source lines 700-702). -/
def leadListMembersEndpoint (listId : String) (start count : Nat) : String :=
  ("/sales-api/salesApiLeadLists/") ++ encodeURIComponent listId ++
    ("/leadListMembers?q=leadListMembers&start=") ++ toString start ++
    ("&count=") ++ toString count

/-- `getLeadRecommendations` API endpoint (source lines 720-722). -/
def leadRecommendationsEndpoint (start count : Nat) : String :=
  ("/sales-api/salesApiLeadRecommendations?start=") ++ toString start ++
    ("&count=") ++ toString count

/-- `getSalesProfile` browser navigation URL (source lines 615-617). -/
def salesProfileBrowserUrl (leadId : String) : String :=
  ("https://www.linkedin.com/sales/lead/") ++ encodeURIComponent leadId

/-- `getSavedLeads` / `getLeadLists` browser navigation URL (source lines
652, 672). -/
def listsPeopleUrl : String := ("https://www.linkedin.com/sales/lists/people")

/-- `getLeadListMembers` browser navigation URL (source lines 705-707). -/
def leadListMembersBrowserUrl (listId : String) : String :=
  ("https://www.linkedin.com/sales/lists/people/") ++ encodeURIComponent listId

/-- `getLeadRecommendations` browser navigation URL (source line 725). -/
def salesHomeUrl : String := ("https://www.linkedin.com/sales/home")

/-! ### Browser-path result envelopes

Each browser branch returns an object literal ending in
`_source: "browser_scrape"`; the Direct Transport branches return the
parsed response body with no field added. -/

/-- Return value of `salesSearchLeadsBrowser` (source lines 521-526). -/
structure LeadsEnvelope where
  leads : List LeadRecord
  total : Nat
  keywords : Option String
  _source : String
deriving DecidableEq, Repr

/-- Return value of the `salesSearchAccounts` browser branch (source line
600). -/
structure AccountsEnvelope where
  accounts : List AccountRecord
  total : Nat
  keywords : Option String
  _source : String
deriving DecidableEq, Repr

/-- Return value of the `getSalesProfile` browser branch (source line
637): the topcard fields, then `leadId`, then the provenance tag. -/
structure SalesProfileEnvelope where
  name : String
  headline : String
  company : String
  location : String
  summary : String
  leadId : String
  _source : String
deriving DecidableEq, Repr

/-- Return value of the `getSavedLeads` browser branch (source line 658). -/
structure SavedLeadsEnvelope where
  _note : String
  _source : String
deriving DecidableEq, Repr

/-- Return value of the `getLeadLists` browser branch (source line 691). -/
structure LeadListsEnvelope where
  lists : List LeadListRecord
  total : Nat
  _source : String
deriving DecidableEq, Repr

/-- Return value of the `getLeadListMembers` browser branch (source line
711). -/
structure LeadListMembersEnvelope where
  listId : String
  _note : String
  _source : String
deriving DecidableEq, Repr

/-- Return value of the `getLeadRecommendations` browser branch (source
line 731). -/
structure LeadRecsEnvelope where
  _note : String
  _source : String
deriving DecidableEq, Repr

/-- Return value of `getConversations` (source lines 846-850). -/
structure ConversationsEnvelope where
  conversations : List ConversationRecord
  total : Nat
  _source : String
deriving DecidableEq, Repr

/-- Return value of `getConversationMessages` (source lines 908-913). -/
structure MessagesEnvelope where
  conversationId : String
  messages : List MessageRecord
  total : Nat
  _source : String
deriving DecidableEq, Repr

/-- `salesSearchLeadsBrowser` after a successful navigation (source lines
461-527): extract up to `params.count ?? 25` leads and wrap them. -/
def salesSearchLeadsBrowser (params : SalesSearchParams)
    (dom : List LeadDomItem) : LeadsEnvelope :=
  let leads := extractLeads dom (params.count.getD 25)
  { leads := leads
    total := leads.length
    keywords := params.keywords
    _source := ("browser_scrape") }

/-- The `salesSearchAccounts` browser branch after a successful navigation
(source lines 554-600). -/
def salesSearchAccountsBrowser (params : SalesSearchParams)
    (dom : List AccountDomItem) : AccountsEnvelope :=
  let accounts := extractAccounts dom (params.count.getD 25)
  { accounts := accounts
    total := accounts.length
    keywords := params.keywords
    _source := ("browser_scrape") }

/-- The `getSalesProfile` browser branch after a successful navigation
(source lines 614-637). -/
def getSalesProfileBrowser (leadId : String) (dom : ProfileTopcardDom) :
    SalesProfileEnvelope :=
  { name := textOr dom.name ("Unknown")
    headline := textOr dom.headline ("")
    company := textOr dom.company ("")
    location := textOr dom.location ("")
    summary := textOr dom.summary ("")
    leadId := leadId
    _source := ("browser_scrape") }

/-- The `getSavedLeads` browser branch (source lines 650-658): a static
note. -/
def getSavedLeadsBrowser : SavedLeadsEnvelope :=
  { _note := ("Navigate to Sales Navigator > Lists > People to view saved leads.")
    _source := ("browser_scrape") }

/-- The `getLeadLists` browser branch after a successful navigation
(source lines 671-691). -/
def getLeadListsBrowser (dom : List LeadListDomItem) : LeadListsEnvelope :=
  let lists := extractLeadLists dom
  { lists := lists
    total := lists.length
    _source := ("browser_scrape") }

/-- The `getLeadListMembers` browser branch (source lines 704-711). -/
def getLeadListMembersBrowser (listId : String) : LeadListMembersEnvelope :=
  { listId := listId
    _note := ("List loaded in browser. Scraping lead list members.")
    _source := ("browser_scrape") }

/-- The `getLeadRecommendations` browser branch (source lines 724-731). -/
def getLeadRecommendationsBrowser : LeadRecsEnvelope :=
  { _note := ("Lead recommendations loaded in Sales Navigator home.")
    _source := ("browser_scrape") }

/-- `getConversations` after a successful navigation (source lines
793-850): cap is the `count` parameter, `start` is unused. -/
def getConversationsBrowser (count : Nat) (dom : List ConversationDomItem) :
    ConversationsEnvelope :=
  let conversations := extractConversations dom count
  { conversations := conversations
    total := conversations.length
    _source := ("browser_scrape") }

/-- `getConversationMessages` after a successful navigation (source lines
856-913). -/
def getConversationMessagesBrowser (conversationId : String) (count : Nat)
    (dom : List MessageDomItem) : MessagesEnvelope :=
  let messages := extractMessages dom count
  { conversationId := conversationId
    messages := messages
    total := messages.length
    _source := ("browser_scrape") }

/-! ### Fallback orchestration

Each fallback-eligible capability is a `try { return await api } catch
{ return browser }`.  The Direct Transport outcome is abstracted as
`Except String α` (the parsed body on success, the thrown message on any
failure), the browser attempt as `Except String Dom` (the DOM snapshot the
`page.evaluate` callback sees on success, a launch/navigation error
otherwise).  Alongside the returned value, each runner records its
transport attempts: `(transport, target URL)` pairs in order. -/

/-- A transport attempt kind. -/
inductive Transport where
  | api
  | browser
deriving DecidableEq, Repr

/-- Result of a fallback-eligible capability: either the Direct Transport
body, passed through unchanged (no provenance field is added on this
path), or a browser-scrape envelope. -/
inductive CapOutput (α β : Type) where
  | api (body : α)
  | scraped (env : β)
deriving DecidableEq, Repr

/-- `salesSearchLeads` (source lines 426-434). -/
def salesSearchLeads {α : Type} (params : SalesSearchParams)
    (apiOutcome : Except String α) (nav : Except String (List LeadDomItem)) :
    Except String (CapOutput α LeadsEnvelope) × List (Transport × String) :=
  match apiOutcome with
  | Except.ok v =>
      (Except.ok (CapOutput.api v),
        [(Transport.api, salesSearchLeadsApiEndpoint params)])
  | Except.error _ =>
      (nav.map (fun dom => CapOutput.scraped (salesSearchLeadsBrowser params dom)),
        [(Transport.api, salesSearchLeadsApiEndpoint params),
         (Transport.browser, leadsBrowserUrl params)])

/-- `salesSearchAccounts` (source lines 532-602). -/
def salesSearchAccounts {α : Type} (params : SalesSearchParams)
    (apiOutcome : Except String α) (nav : Except String (List AccountDomItem)) :
    Except String (CapOutput α AccountsEnvelope) × List (Transport × String) :=
  match apiOutcome with
  | Except.ok v =>
      (Except.ok (CapOutput.api v),
        [(Transport.api, salesSearchAccountsApiEndpoint params)])
  | Except.error _ =>
      (nav.map (fun dom => CapOutput.scraped (salesSearchAccountsBrowser params dom)),
        [(Transport.api, salesSearchAccountsApiEndpoint params),
         (Transport.browser, accountsBrowserUrl params)])

/-- `getSalesProfile` (source lines 607-639). -/
def getSalesProfile {α : Type} (leadId : String)
    (apiOutcome : Except String α) (nav : Except String ProfileTopcardDom) :
    Except String (CapOutput α SalesProfileEnvelope) × List (Transport × String) :=
  match apiOutcome with
  | Except.ok v =>
      (Except.ok (CapOutput.api v),
        [(Transport.api, getSalesProfileEndpoint leadId)])
  | Except.error _ =>
      (nav.map (fun dom => CapOutput.scraped (getSalesProfileBrowser leadId dom)),
        [(Transport.api, getSalesProfileEndpoint leadId),
         (Transport.browser, salesProfileBrowserUrl leadId)])

/-- `getSavedLeads` (source lines 644-660). -/
def getSavedLeads {α : Type} (start count : Nat)
    (apiOutcome : Except String α) (nav : Except String Unit) :
    Except String (CapOutput α SavedLeadsEnvelope) × List (Transport × String) :=
  match apiOutcome with
  | Except.ok v =>
      (Except.ok (CapOutput.api v),
        [(Transport.api, savedLeadsEndpoint start count)])
  | Except.error _ =>
      (nav.map (fun _ => CapOutput.scraped getSavedLeadsBrowser),
        [(Transport.api, savedLeadsEndpoint start count),
         (Transport.browser, listsPeopleUrl)])

/-- `getLeadLists` (source lines 665-693). -/
def getLeadLists {α : Type} (start count : Nat)
    (apiOutcome : Except String α) (nav : Except String (List LeadListDomItem)) :
    Except String (CapOutput α LeadListsEnvelope) × List (Transport × String) :=
  match apiOutcome with
  | Except.ok v =>
      (Except.ok (CapOutput.api v),
        [(Transport.api, leadListsEndpoint start count)])
  | Except.error _ =>
      (nav.map (fun dom => CapOutput.scraped (getLeadListsBrowser dom)),
        [(Transport.api, leadListsEndpoint start count),
         (Transport.browser, listsPeopleUrl)])

/-- `getLeadListMembers` (source lines 698-713). -/
def getLeadListMembers {α : Type} (listId : String) (start count : Nat)
    (apiOutcome : Except String α) (nav : Except String Unit) :
    Except String (CapOutput α LeadListMembersEnvelope) × List (Transport × String) :=
  match apiOutcome with
  | Except.ok v =>
      (Except.ok (CapOutput.api v),
        [(Transport.api, leadListMembersEndpoint listId start count)])
  | Except.error _ =>
      (nav.map (fun _ => CapOutput.scraped (getLeadListMembersBrowser listId)),
        [(Transport.api, leadListMembersEndpoint listId start count),
         (Transport.browser, leadListMembersBrowserUrl listId)])

/-- `getLeadRecommendations` (source lines 718-733). -/
def getLeadRecommendations {α : Type} (start count : Nat)
    (apiOutcome : Except String α) (nav : Except String Unit) :
    Except String (CapOutput α LeadRecsEnvelope) × List (Transport × String) :=
  match apiOutcome with
  | Except.ok v =>
      (Except.ok (CapOutput.api v),
        [(Transport.api, leadRecommendationsEndpoint start count)])
  | Except.error _ =>
      (nav.map (fun _ => CapOutput.scraped getLeadRecommendationsBrowser),
        [(Transport.api, leadRecommendationsEndpoint start count),
         (Transport.browser, salesHomeUrl)])

/-! ### API-only capabilities (no browser fallback) -/

/-- `getProfile` (source lines 222-226): a single Direct Transport
request; its outcome — success or failure — is the method's outcome. -/
def getProfile {α : Type} (publicIdentifier : String)
    (outcome : Except String α) :
    Except String α × List (Transport × String) :=
  (outcome, [(Transport.api, getProfileEndpoint publicIdentifier)])

/-- `getCompany` (source lines 376-380): likewise a single request. -/
def getCompany {α : Type} (universalName : String)
    (outcome : Except String α) :
    Except String α × List (Transport × String) :=
  (outcome, [(Transport.api, getCompanyEndpoint universalName)])

/-- Direct Transport outcomes of the three endpoints
`getPendingConnections` can try (source lines 949-971). -/
structure PendingOutcomes (α : Type) where
  dash : Except String α
  invitationViews : Except String α
  graphql : Except String α
deriving Repr

/-- `getPendingConnections` pending-invitations graphql endpoint (source
lines 966-968). -/
def pendingGraphqlEndpoint (start count : Nat) : String :=
  ("/voyager/api/graphql?variables=(start:") ++ toString start ++
    (",count:") ++ toString count ++
    (",invitationType:CONNECTION)&queryId=voyagerRelationshipsDashSentInvitationViews.b4f93905fc7153eb7abcba3f7e01b03e")

/-- `getPendingConnections` dash endpoint (source lines 955-957). -/
def pendingDashEndpoint (start count : Nat) : String :=
  ("/voyager/api/voyagerRelationshipsDashMemberRelationships?decorationId=com.linkedin.voyager.dash.deco.relationships.InvitationView-2&q=sentInvitation&start=") ++
    toString start ++ ("&count=") ++ toString count

/-- `getPendingConnections` invitationViews endpoint (source lines
961-963). -/
def pendingInvitationViewsEndpoint (start count : Nat) : String :=
  ("/voyager/api/relationships/invitationViews?start=") ++ toString start ++
    ("&count=") ++ toString count ++ ("&includeInsights=true&q=receivedInvitation")

/-- `getPendingConnections` (source lines 949-971): nested try/catch over
three Direct Transport endpoints, never touching the browser. -/
def getPendingConnections {α : Type} (start count : Nat)
    (o : PendingOutcomes α) :
    Except String α × List (Transport × String) :=
  match o.dash with
  | Except.ok v =>
      (Except.ok v, [(Transport.api, pendingDashEndpoint start count)])
  | Except.error _ =>
      match o.invitationViews with
      | Except.ok v =>
          (Except.ok v,
            [(Transport.api, pendingDashEndpoint start count),
             (Transport.api, pendingInvitationViewsEndpoint start count)])
      | Except.error _ =>
          (o.graphql,
            [(Transport.api, pendingDashEndpoint start count),
             (Transport.api, pendingInvitationViewsEndpoint start count),
             (Transport.api, pendingGraphqlEndpoint start count)])

/-! ### Browser session state (`getBrowserPage`, source lines 148-196) -/

/-- The mutable fields of `LinkedInClient`: the immutable credentials plus
the browser/page pair, abstracted to its liveness
(`this.browserPage && this.browser?.connected`). -/
structure ClientState where
  creds : Credentials
  browserLive : Bool
deriving DecidableEq, Repr

/-- `getBrowserPage` (source lines 148-196): reuse the live page, else
launch a browser and set the page fields.  Only the browser fields are
written; the credential fields are read (for cookie injection) but never
assigned. -/
def getBrowserPage (s : ClientState) : ClientState :=
  if s.browserLive then s else { s with browserLive := true }

/-! ### `getProfileSkills` (source lines 267-278) -/

/-- One entry of the `included` array of a Voyager response, restricted to
the fields `getProfileSkills` reads: the `$type` marker and the profile
summary.  A missing field is `none`. -/
structure IncludedEntity where
  type : Option String
  summary : Option String
deriving DecidableEq, Repr

/-- Substring test (JavaScript `String.prototype.includes`). -/
def strContains (hay needle : String) : Bool :=
  (List.range (hay.data.length + 1)).any
    (fun i => needle.data.isPrefixOf (hay.data.drop i))

/-- `(i.$type as string)?.includes("identity.profile.Profile")` (source
lines 270-272): a missing `$type` is falsy. -/
def isProfileEntity (e : IncludedEntity) : Bool :=
  match e.type with
  | some t => strContains t ("identity.profile.Profile")
  | none => false

/-- The `_note` text (source line 276): a fixed prefix plus
`profile?.summary || "N/A"` for the first profile entity found. -/
def skillsNote (included : List IncludedEntity) : String :=
  ("LinkedIn deprecated the skills API endpoint. Skill data is no longer returned through the Voyager API. The profile summary may mention skills: ") ++
    (match included.find? isProfileEntity with
     | some p =>
         match p.summary with
         | some s => if s = ("") then ("N/A") else s
         | none => ("N/A")
     | none => ("N/A"))

/-- Return value of `getProfileSkills` (source lines 273-277). -/
structure SkillsResult where
  publicIdentifier : String
  skills : List String
  _note : String
deriving DecidableEq, Repr

/-- `getProfileSkills` (source lines 267-278): whatever profile data the
`getProfileDetails` fetch produced (its `included` array), the returned
`skills` collection is the literal empty array. -/
def getProfileSkills (publicIdentifier : String)
    (included : List IncludedEntity) : SkillsResult :=
  { publicIdentifier := publicIdentifier
    skills := []
    _note := skillsNote included }

/-! ## Example data used by counterexamples and witnesses -/

/-- Concrete credentials for counterexamples. -/
def exampleCreds : Credentials :=
  { li_at := ("LIAT"), jsessionid := ("\"ajax:abc123\"") }

/-- A loading-skeleton lead item: carries the `.dummy-text` marker and no
content elements. -/
def skeletonLead : LeadDomItem :=
  { dummyText := true, personName := none, title := none, companyName := none,
    location := none, personBlurb := none, jobTitle := none, badge := none,
    salesLeadHref := none }

/-- A fully rendered (matching, non-skeleton) lead item. -/
def realLead (i : Nat) : LeadDomItem :=
  { dummyText := false, personName := some (("Person ") ++ toString i),
    title := some ("Engineer"), companyName := some ("Acme"), location := none,
    personBlurb := none, jobTitle := none, badge := none, salesLeadHref := none }

/-- A loading-skeleton conversation item: `.dummy-text` marker present, no
content elements. -/
def skeletonConversation : ConversationDomItem :=
  { dummyText := true, participantName := none, messageSnippet := none,
    timeEl := none, unreadClass := false, unreadCard := false, linkHref := none }

/-- Two parameter sets sharing `keywords` and `count` but differing in
every filter and in `start`. -/
def paramsA : SalesSearchParams :=
  { keywords := some ("fintech"), title := some ("CTO"), start := some 50 }

/-- See `paramsA`. -/
def paramsB : SalesSearchParams :=
  { keywords := some ("fintech"), company := some ("Acme"),
    geography := some ("US"), industry := some ("Software"),
    seniorityLevel := some ("VP"), functionParam := some ("Sales"),
    start := some 0 }

/-- Pending-connections outcomes where the dash endpoint fails and the
second endpoint succeeds. -/
def examplePendingOutcomes : PendingOutcomes String :=
  { dash := Except.error ("LinkedIn API error 500: boom")
    invitationViews := Except.ok ("invitation page")
    graphql := Except.error ("unused") }

/-! ## Helper lemmas -/

/-- Every character `generateCsrfToken` can pick is a lowercase letter or
a digit. -/
theorem tokenChar_lower_digit :
    ∀ j : Fin 36, ((tokenChar j).isLower || (tokenChar j).isDigit) = true := by
  decide

/-- Looking a key up in a spread record whose second component never binds
that key falls through to the first component. -/
theorem lookupHeader_append_of_absent (a b : List (String × String))
    (k : String) (h : b.all (fun p => p.1 != k) = true) :
    lookupHeader (a ++ b) k = lookupHeader a k := by
  unfold lookupHeader
  rw [List.reverse_append, List.find?_append]
  have hnone : b.reverse.find? (fun p => p.1 == k) = none := by
    rw [List.find?_eq_none]
    intro x hx
    have hx' := List.all_eq_true.mp h x (List.mem_reverse.mp hx)
    simpa using hx'
  rw [hnone, Option.none_or]

/-! ## Claims -/

/-- Claim C1, counterexample: a caller-supplied `Cookie` header replaces
the session's `Cookie` in the headers the private `request` method sends —
`{...this.headers, ...options.headers}` lets the caller spread win, so the
claim that caller headers never replace the session `Cookie`/`csrf-token`
entries is false. -/
theorem caller_header_overrides_cookie_cex :
    lookupHeader (requestHeaders exampleCreds [(("Cookie"), ("tampered"))])
        ("Cookie") = some ("tampered") ∧
    lookupHeader (sessionHeaders exampleCreds) ("Cookie") =
      some ("li_at=LIAT; JSESSIONID=\"ajax:abc123\"") ∧
    (("tampered") : String) ≠ ("li_at=LIAT; JSESSIONID=\"ajax:abc123\"") := by
  decide

/-- Claim C1, amended: caller-supplied headers merge into the session
header set, and whenever the caller record contains no `Cookie` /
`csrf-token` entry the session-derived values are sent unchanged; on a key
collision, however, the caller's value replaces the session's. -/
theorem request_headers_merge_amended (creds : Credentials)
    (callerHeaders : List (String × String))
    (hC : callerHeaders.all (fun p => p.1 != ("Cookie")) = true)
    (hT : callerHeaders.all (fun p => p.1 != ("csrf-token")) = true) :
    lookupHeader (requestHeaders creds callerHeaders) ("Cookie") =
      some (("li_at=") ++ creds.li_at ++ ("; JSESSIONID=") ++ creds.jsessionid) ∧
    lookupHeader (requestHeaders creds callerHeaders) ("csrf-token") =
      some (stripQuotes creds.jsessionid) := by
  constructor
  · rw [requestHeaders, lookupHeader_append_of_absent _ _ _ hC]; rfl
  · rw [requestHeaders, lookupHeader_append_of_absent _ _ _ hT]; rfl

/-- Claim C1, amended, witness: the one concrete caller record the
repository actually passes (`Content-Type: application/json`, from
`sendConnectionRequest`) leaves both session headers unchanged. -/
theorem request_headers_merge_amended_witness :
    lookupHeader (requestHeaders exampleCreds
        [(("Content-Type"), ("application/json"))]) ("Cookie") =
      some (("li_at=") ++ exampleCreds.li_at ++ ("; JSESSIONID=") ++
        exampleCreds.jsessionid) ∧
    lookupHeader (requestHeaders exampleCreds
        [(("Content-Type"), ("application/json"))]) ("csrf-token") =
      some (stripQuotes exampleCreds.jsessionid) :=
  request_headers_merge_amended exampleCreds _ (by decide) (by decide)

/-- Claim C2: for each of the seven fallback-eligible capabilities, the
transport-attempt trace is exactly `[api]` when the Direct Transport
attempt succeeds and exactly `[api, browser]` when it raises — the Direct
Transport call is never retried and the browser fallback happens exactly
once, with its navigation target. -/
theorem fallback_single_attempt :
    (∀ (α : Type) (p : SalesSearchParams) (apiOutcome : Except String α)
        (nav : Except String (List LeadDomItem)),
      (salesSearchLeads p apiOutcome nav).2 =
        match apiOutcome with
        | Except.ok _ => [(Transport.api, salesSearchLeadsApiEndpoint p)]
        | Except.error _ =>
            [(Transport.api, salesSearchLeadsApiEndpoint p),
             (Transport.browser, leadsBrowserUrl p)]) ∧
    (∀ (α : Type) (p : SalesSearchParams) (apiOutcome : Except String α)
        (nav : Except String (List AccountDomItem)),
      (salesSearchAccounts p apiOutcome nav).2 =
        match apiOutcome with
        | Except.ok _ => [(Transport.api, salesSearchAccountsApiEndpoint p)]
        | Except.error _ =>
            [(Transport.api, salesSearchAccountsApiEndpoint p),
             (Transport.browser, accountsBrowserUrl p)]) ∧
    (∀ (α : Type) (leadId : String) (apiOutcome : Except String α)
        (nav : Except String ProfileTopcardDom),
      (getSalesProfile leadId apiOutcome nav).2 =
        match apiOutcome with
        | Except.ok _ => [(Transport.api, getSalesProfileEndpoint leadId)]
        | Except.error _ =>
            [(Transport.api, getSalesProfileEndpoint leadId),
             (Transport.browser, salesProfileBrowserUrl leadId)]) ∧
    (∀ (α : Type) (s c : Nat) (apiOutcome : Except String α)
        (nav : Except String Unit),
      (getSavedLeads s c apiOutcome nav).2 =
        match apiOutcome with
        | Except.ok _ => [(Transport.api, savedLeadsEndpoint s c)]
        | Except.error _ =>
            [(Transport.api, savedLeadsEndpoint s c),
             (Transport.browser, listsPeopleUrl)]) ∧
    (∀ (α : Type) (s c : Nat) (apiOutcome : Except String α)
        (nav : Except String (List LeadListDomItem)),
      (getLeadLists s c apiOutcome nav).2 =
        match apiOutcome with
        | Except.ok _ => [(Transport.api, leadListsEndpoint s c)]
        | Except.error _ =>
            [(Transport.api, leadListsEndpoint s c),
             (Transport.browser, listsPeopleUrl)]) ∧
    (∀ (α : Type) (listId : String) (s c : Nat) (apiOutcome : Except String α)
        (nav : Except String Unit),
      (getLeadListMembers listId s c apiOutcome nav).2 =
        match apiOutcome with
        | Except.ok _ => [(Transport.api, leadListMembersEndpoint listId s c)]
        | Except.error _ =>
            [(Transport.api, leadListMembersEndpoint listId s c),
             (Transport.browser, leadListMembersBrowserUrl listId)]) ∧
    (∀ (α : Type) (s c : Nat) (apiOutcome : Except String α)
        (nav : Except String Unit),
      (getLeadRecommendations s c apiOutcome nav).2 =
        match apiOutcome with
        | Except.ok _ => [(Transport.api, leadRecommendationsEndpoint s c)]
        | Except.error _ =>
            [(Transport.api, leadRecommendationsEndpoint s c),
             (Transport.browser, salesHomeUrl)]) := by
  refine ⟨?_, ?_, ?_, ?_, ?_, ?_, ?_⟩ <;>
    · intros
      rename_i apiOutcome _
      cases apiOutcome <;> rfl

/-- Claim C3, counterexample: with one skeleton item followed by ten
matching items and a requested count of 10, the lead extraction returns 9
records, not 10 — the cap `index >= maxCount` tests the raw DOM index, so
the skipped skeleton item consumes one of the 10 slots. -/
theorem extraction_cap_skeleton_slot_cex :
    (extractLeads (skeletonLead :: (List.range 10).map realLead) 10).length = 9 := by
  decide

/-- Claim C3, amended: the cap is applied to the raw DOM index (skipped
items consume slots); whenever the first `count` DOM items are all
non-skipped — e.g. 30 matching items with a requested count of 10 —
exactly the first `count` records are returned, in DOM order. -/
theorem extraction_cap_amended (items : List LeadDomItem) (n : Nat)
    (h : ∀ it ∈ items.take n, (it.dummyText || it.personName.isNone) = false) :
    extractLeads items n = (items.take n).map leadOfItem :=
  extractRS_clean_prefix leadRules items n h

/-- Claim C3, amended, witness: 30 matching DOM items, requested count 10,
exactly the 10 first records in DOM order. -/
theorem extraction_cap_amended_witness :
    extractLeads ((List.range 30).map realLead) 10 =
      (((List.range 30).map realLead).take 10).map leadOfItem ∧
    (extractLeads ((List.range 30).map realLead) 10).length = 10 :=
  ⟨extraction_cap_amended ((List.range 30).map realLead) 10 (by decide),
   by decide⟩

/-- Claim C4, counterexample: `getPendingConnections` is not a
single-endpoint API capability — when its first (dash) Direct Transport
request fails, the failure does not propagate: a second Direct Transport
endpoint is tried and its success is returned. -/
theorem pending_connections_second_endpoint_cex :
    (getPendingConnections 0 20 examplePendingOutcomes).1 =
      Except.ok ("invitation page") ∧
    (getPendingConnections 0 20 examplePendingOutcomes).2 =
      [(Transport.api, pendingDashEndpoint 0 20),
       (Transport.api, pendingInvitationViewsEndpoint 0 20)] := by
  constructor <;> rfl

/-- Claim C4, amended: capabilities with a single Direct Transport request
(`getProfile`, `getCompany`, and likewise the other API-only single-request
operations) propagate its outcome — success or failure — unchanged with no
browser attempt; `getPendingConnections`, however, tries up to three
Direct Transport endpoints in order and only its last failure propagates,
still with no browser attempt. -/
theorem api_only_failure_propagation_amended :
    (∀ (α : Type) (pid : String) (o : Except String α),
      getProfile pid o = (o, [(Transport.api, getProfileEndpoint pid)])) ∧
    (∀ (α : Type) (uname : String) (o : Except String α),
      getCompany uname o = (o, [(Transport.api, getCompanyEndpoint uname)])) ∧
    (∀ (α : Type) (s c : Nat) (e₁ e₂ e₃ : String),
      getPendingConnections s c
          { dash := Except.error e₁, invitationViews := Except.error e₂,
            graphql := (Except.error e₃ : Except String α) } =
        (Except.error e₃,
          [(Transport.api, pendingDashEndpoint s c),
           (Transport.api, pendingInvitationViewsEndpoint s c),
           (Transport.api, pendingGraphqlEndpoint s c)])) :=
  ⟨fun _ _ _ => rfl, fun _ _ _ => rfl, fun _ _ _ _ _ _ => rfl⟩

/-- Claim C5, counterexample: the conversation-list extraction has no skip
predicate, so a loading-skeleton DOM item (dummy-text marker, no content)
still produces an output record — skeleton items are not excluded from
every rule set's output. -/
theorem skeleton_conversation_extracted_cex :
    extractConversations [skeletonConversation] 20 =
      [{ participantName := ("Unknown"), lastMessage := (""),
         timestamp := (""), unread := false, conversationLink := ("") }] := by
  decide

/-- Claim C5, amended: only the lead-search and account-search rule sets
define a skip predicate (dummy-text marker, or missing name element), and
for those every output record comes from a non-skipped item regardless of
position; the conversation, message and lead-list rule sets define no skip
predicate and extract every in-range DOM item. -/
theorem skip_predicate_amended :
    (∀ (items : List LeadDomItem) (n : Nat) (r : LeadRecord),
      r ∈ extractLeads items n →
        ∃ it, it ∈ items ∧ it.dummyText = false ∧ it.personName.isNone = false ∧
          r = leadOfItem it) ∧
    (∀ (items : List AccountDomItem) (n : Nat) (r : AccountRecord),
      r ∈ extractAccounts items n →
        ∃ it, it ∈ items ∧ it.dummyText = false ∧
          it.companyName.isNone = false ∧ r = accountOfItem it) ∧
    (∀ (items : List ConversationDomItem) (n : Nat),
      (extractConversations items n).length = min n items.length) ∧
    (∀ (items : List MessageDomItem) (n : Nat),
      (extractMessages items n).length = min n items.length) ∧
    (∀ items : List LeadListDomItem,
      (extractLeadLists items).length = items.length) := by
  refine ⟨?_, ?_, ?_, ?_, ?_⟩
  · intro items n r hr
    obtain ⟨it, hit, hsk, hb⟩ := extractRS_mem leadRules items n r hr
    have hsk' : (it.dummyText || it.personName.isNone) = false := hsk
    exact ⟨it, hit, (Bool.or_eq_false_iff.mp hsk').1,
      (Bool.or_eq_false_iff.mp hsk').2, hb⟩
  · intro items n r hr
    obtain ⟨it, hit, hsk, hb⟩ := extractRS_mem accountRules items n r hr
    have hsk' : (it.dummyText || it.companyName.isNone) = false := hsk
    exact ⟨it, hit, (Bool.or_eq_false_iff.mp hsk').1,
      (Bool.or_eq_false_iff.mp hsk').2, hb⟩
  · exact fun items n => extractRS_noskip_length conversationRules (fun _ => rfl) items n
  · exact fun items n => extractRS_noskip_length messageRules (fun _ => rfl) items n
  · intro items
    simp [extractLeadLists]

/-- Claim C5, amended, witness: a record extracted by the lead rule set
does come from a non-skipped item. -/
theorem skip_predicate_amended_witness :
    ∃ it, it ∈ [realLead 0] ∧ it.dummyText = false ∧
      it.personName.isNone = false ∧ leadOfItem (realLead 0) = leadOfItem it :=
  skip_predicate_amended.1 [realLead 0] 10 (leadOfItem (realLead 0)) (by decide)

/-- Claim C6: every browser-scrape envelope carries
`_source = "browser_scrape"`; a Direct Transport success is passed through
as the parsed body with no tag added; and a lead search whose Direct
Transport response has status 403 falls back to the browser exactly once
and returns the tagged scrape envelope. -/
theorem browser_scrape_provenance_tag :
    (∀ (p : SalesSearchParams) (dom : List LeadDomItem),
      (salesSearchLeadsBrowser p dom)._source = ("browser_scrape")) ∧
    (∀ (p : SalesSearchParams) (dom : List AccountDomItem),
      (salesSearchAccountsBrowser p dom)._source = ("browser_scrape")) ∧
    (∀ (leadId : String) (dom : ProfileTopcardDom),
      (getSalesProfileBrowser leadId dom)._source = ("browser_scrape")) ∧
    getSavedLeadsBrowser._source = ("browser_scrape") ∧
    (∀ dom : List LeadListDomItem,
      (getLeadListsBrowser dom)._source = ("browser_scrape")) ∧
    (∀ listId : String,
      (getLeadListMembersBrowser listId)._source = ("browser_scrape")) ∧
    getLeadRecommendationsBrowser._source = ("browser_scrape") ∧
    (∀ (count : Nat) (dom : List ConversationDomItem),
      (getConversationsBrowser count dom)._source = ("browser_scrape")) ∧
    (∀ (cid : String) (count : Nat) (dom : List MessageDomItem),
      (getConversationMessagesBrowser cid count dom)._source = ("browser_scrape")) ∧
    (∀ (α : Type) (p : SalesSearchParams) (v : α)
        (nav : Except String (List LeadDomItem)),
      (salesSearchLeads p (Except.ok v) nav).1 = Except.ok (CapOutput.api v)) ∧
    (∀ (α : Type) (p : SalesSearchParams) (parse : String → Except String α)
        (txt : String) (dom : List LeadDomItem),
      salesSearchLeads p
          (requestResult { statusCode := 403, text := txt } parse)
          (Except.ok dom) =
        (Except.ok (CapOutput.scraped (salesSearchLeadsBrowser p dom)),
          [(Transport.api, salesSearchLeadsApiEndpoint p),
           (Transport.browser, leadsBrowserUrl p)])) :=
  ⟨fun _ _ => rfl, fun _ _ => rfl, fun _ _ => rfl, rfl, fun _ => rfl,
   fun _ => rfl, rfl, fun _ _ => rfl, fun _ _ _ => rfl, fun _ _ _ _ => rfl,
   fun _ _ _ _ _ => rfl⟩

/-- Claim C7: with the supplied CSRF token stored as `"ajax:abc123"`
(double quotes included), the client stores it verbatim, the derived
`csrf-token` header is `ajax:abc123` (quotes stripped), and the derived
`Cookie` header combines `li_at=<session cookie value>` with the stored
JSESSIONID value verbatim, quotes intact. -/
theorem csrf_cookie_header_derivation (li : String) (rand : Nat → Fin 36) :
    mkClient { li_at := li, jsessionid := some ("\"ajax:abc123\"") } rand =
      { li_at := li, jsessionid := ("\"ajax:abc123\"") } ∧
    lookupHeader (sessionHeaders { li_at := li, jsessionid := ("\"ajax:abc123\"") })
        ("csrf-token") = some ("ajax:abc123") ∧
    lookupHeader (sessionHeaders { li_at := li, jsessionid := ("\"ajax:abc123\"") })
        ("Cookie") =
      some (("li_at=") ++ li ++ ("; JSESSIONID=") ++ ("\"ajax:abc123\"")) := by
  refine ⟨?_, rfl, rfl⟩
  simp [mkClient]

/-- Claim C8: constructed without a supplied CSRF token, the stored token
is `"ajax:<t>"` wrapped in double quotes with `<t>` exactly 16 characters,
each a lowercase letter or digit — for every possible random draw
sequence; and the credentials are never written after construction (the
only state-mutating operation, `getBrowserPage`, preserves them). -/
theorem generated_token_shape (li : String) (rand : Nat → Fin 36) :
    (mkClient { li_at := li, jsessionid := none } rand).jsessionid =
      ("\"ajax:") ++ generateCsrfToken rand ++ ("\"") ∧
    (generateCsrfToken rand).length = 16 ∧
    ((generateCsrfToken rand).data.all (fun c => c.isLower || c.isDigit)) = true ∧
    (∀ s : ClientState, (getBrowserPage s).creds = s.creds) := by
  refine ⟨rfl, rfl, ?_, ?_⟩
  · apply List.all_eq_true.mpr
    intro c hc
    obtain ⟨i, _, rfl⟩ := List.mem_map.mp hc
    exact tokenChar_lower_digit (rand i)
  · intro s
    by_cases h : s.browserLive <;> simp [getBrowserPage, h]

/-- Claim C9: the lead-search browser path builds its navigation URL from
`keywords` alone and its result additionally depends only on `count` (the
extraction cap), so two parameter sets agreeing on `keywords` and `count`
— however they differ in title, company, geography, industry, seniority,
function or start — navigate to the same URL and produce the same result. -/
theorem browser_path_ignores_filters (p q : SalesSearchParams)
    (hk : p.keywords = q.keywords) (hc : p.count = q.count) :
    leadsBrowserUrl p = leadsBrowserUrl q ∧
    ∀ dom : List LeadDomItem,
      salesSearchLeadsBrowser p dom = salesSearchLeadsBrowser q dom := by
  constructor
  · unfold leadsBrowserUrl
    rw [hk]
  · intro dom
    unfold salesSearchLeadsBrowser extractLeads
    rw [hk, hc]

/-- Claim C9, witness: two concrete parameter sets differing in title,
company, geography, industry, seniority, function and start (but agreeing
on keywords and count) give the same URL and the same extraction result. -/
theorem browser_path_ignores_filters_witness :
    leadsBrowserUrl paramsA = leadsBrowserUrl paramsB ∧
    salesSearchLeadsBrowser paramsA [skeletonLead, realLead 1] =
      salesSearchLeadsBrowser paramsB [skeletonLead, realLead 1] :=
  ⟨(browser_path_ignores_filters paramsA paramsB rfl rfl).1,
   (browser_path_ignores_filters paramsA paramsB rfl rfl).2
      [skeletonLead, realLead 1]⟩

/-- Claim C10: for every public identifier and whatever profile data the
fetch produced, `getProfileSkills` returns an empty `skills` list; the
returned `publicIdentifier` is the input and the note text depends only on
the fetched data (it embeds the profile summary), not on the identifier. -/
theorem profile_skills_always_empty (pid : String)
    (included : List IncludedEntity) :
    (getProfileSkills pid included).skills = [] ∧
    (getProfileSkills pid included).publicIdentifier = pid ∧
    (getProfileSkills pid included)._note = skillsNote included ∧
    (∀ pid2 : String, (getProfileSkills pid2 included)._note =
      (getProfileSkills pid included)._note) :=
  ⟨rfl, rfl, rfl, fun _ => rfl⟩

end LinkedInMCP
